import Mathlib

/-!
Shallow embedding of `src/services/remote-desktop-client.service.ts`
(`RemoteDesktopClient`).

The class keeps three pieces of observable state:
  * `state`          — the private current application state, initialised to `IDLE`;
  * `onStateChange`  — an rxjs `BehaviorSubject` created with initial value
                       `CONNECTING`; its buffer always holds exactly the last
                       value pushed with `next` (or the initial value);
  * `onClipboard`    — an rxjs `ReplaySubject(1)`; its buffer starts empty and
                       holds the last value pushed with `next`.

Side effects on the external collaborators (the guacamole `Client`) and the
notifications pushed to current subscribers are recorded as an explicit
`Effect` trace, in the order the source performs them.
-/

namespace RemoteDesktop

/-- The `RemoteDesktopClient.STATE` constants (source lines 7–48). -/
inductive AppState where
  | IDLE
  | CONNECTING
  | WAITING
  | CONNECTED
  | DISCONNECTED
  | CLIENT_ERROR
  | TUNNEL_ERROR
deriving DecidableEq, Repr

/-- Observable side effects, in the order the source code performs them:
calls into the underlying guacamole client, and values pushed (`next`) onto
the two subject channels. -/
inductive Effect where
  | clientDisconnect
  | publishState (s : AppState)
  | publishClipboard (payload : String)
  | setClipboardOnClient (payload : String)
deriving DecidableEq, Repr

/-- The mutable observable state of a `RemoteDesktopClient` instance:
the private `state` field plus the replay buffers of the two channels. -/
structure RDState where
  state : AppState
  onStateChange : AppState
  onClipboard : Option String
deriving DecidableEq, Repr

/-- A freshly constructed client: `state = IDLE` (line 72),
`onStateChange = new BehaviorSubject(CONNECTING)` (line 50),
`onClipboard = new ReplaySubject(1)` (line 52, empty buffer). -/
def initialState : RDState :=
  { state := AppState.IDLE
    onStateChange := AppState.CONNECTING
    onClipboard := none }

/-- `getState()` (lines 79–81). -/
def getState (rd : RDState) : AppState :=
  rd.state

/-- `isState(state)` (lines 83–85). -/
def isState (rd : RDState) (s : AppState) : Bool :=
  s == rd.state

/-- `setState(state)` (lines 176–179): assign the private field, then
`onStateChange.next(this.state)` (which replaces the behavior subject's
buffered value and notifies subscribers). -/
def setState (rd : RDState) (s : AppState) : RDState × List Effect :=
  ({ rd with state := s, onStateChange := s }, [Effect.publishState s])

/-- `disconnect()` (lines 163–165): delegates to `this.client.disconnect()`. -/
def disconnect (rd : RDState) : RDState × List Effect :=
  (rd, [Effect.clientDisconnect])

/-- `handleClientError(status)` (lines 222–226): `this.disconnect()` then
`this.setState(CLIENT_ERROR)`. -/
def handleClientError (rd : RDState) : RDState × List Effect :=
  let d := disconnect rd
  let r := setState d.1 AppState.CLIENT_ERROR
  (r.1, d.2 ++ r.2)

/-- `handleTunnelError(status)` (lines 252–255): `this.disconnect()` then
`this.setState(TUNNEL_ERROR)`. -/
def handleTunnelError (rd : RDState) : RDState × List Effect :=
  let d := disconnect rd
  let r := setState d.1 AppState.TUNNEL_ERROR
  (r.1, d.2 ++ r.2)

/-- `handleClientStateChange(state)` (lines 228–250): the `switch` over the
raw guacamole client state code.  Cases 1, 4 and 5 only `break`; a code not
listed falls through the `switch` with no effect. -/
def handleClientStateChange (rd : RDState) (code : Nat) : RDState × List Effect :=
  match code with
  | 0 => setState rd AppState.IDLE
  | 1 => (rd, [])
  | 2 => setState rd AppState.WAITING
  | 3 => setState rd AppState.CONNECTED
  | 4 => (rd, [])
  | 5 => (rd, [])
  | _ => (rd, [])

/-- `handleTunnelStateChange(state)` (lines 257–268): the `switch` over the
raw tunnel state code; codes other than 1 and 2 fall through with no effect. -/
def handleTunnelStateChange (rd : RDState) (code : Nat) : RDState × List Effect :=
  match code with
  | 1 => setState rd AppState.CONNECTING
  | 2 => setState rd AppState.DISCONNECTED
  | _ => (rd, [])

/-- `sendClipboard(text)` (lines 156–161).  The JS guard `if (text)` is falsy
exactly for an absent argument (`none`) or the empty string, since `text` is a
string. -/
def sendClipboard (rd : RDState) (text : Option String) : RDState × List Effect :=
  match text with
  | none => (rd, [])
  | some t =>
    if t == "" then (rd, [])
    else ({ rd with onClipboard := some t },
          [Effect.publishClipboard t, Effect.setClipboardOnClient t])

/-- An inbound clipboard stream as the stream reader of `handleClipboard`
observes it: the ordered text chunks delivered to `ontext`, and whether the
end-of-stream signal (`onend`) fired. -/
structure InboundStream where
  chunks : List String
  ended : Bool
deriving DecidableEq, Repr

/-- The accumulator of `handleClipboard` (lines 144–145): `data` starts `''`
and each `ontext(text)` chunk appends, `data += text`. -/
def assembleData (chunks : List String) : String :=
  chunks.foldl (fun d t => d ++ t) ""

/-- The regex test `/^text\//.exec(mimetype)` of line 140: does the mimetype
character sequence start with `text/`? -/
def isTextMimetype (mimetype : String) : Bool :=
  "text/".data.isPrefixOf mimetype.data

/-- `handleClipboard(stream, mimetype)` (lines 138–150): if the mimetype
matches `/^text\//`, a `StringReader` accumulates the chunks, and `onend`
pushes the accumulated data on `onClipboard`; if `onend` never fires, or the
mimetype does not start with `text/`, nothing is ever pushed. -/
def handleClipboard (rd : RDState) (mimetype : String) (stream : InboundStream) :
    RDState × List Effect :=
  if isTextMimetype mimetype then
    if stream.ended then
      let data := assembleData stream.chunks
      ({ rd with onClipboard := some data }, [Effect.publishClipboard data])
    else (rd, [])
  else (rd, [])

/-- The raw events the bound handlers can receive (lines 214–220), plus the
two public clipboard-affecting operations. -/
inductive RawEvent where
  | clientState (code : Nat)
  | tunnelState (code : Nat)
  | clientError
  | tunnelError
  | sendClip (text : Option String)
  | inboundClipboard (mimetype : String) (stream : InboundStream)
deriving DecidableEq, Repr

/-- Dispatch one raw event to the handler the source binds for it. -/
def step (rd : RDState) : RawEvent → RDState × List Effect
  | RawEvent.clientState code => handleClientStateChange rd code
  | RawEvent.tunnelState code => handleTunnelStateChange rd code
  | RawEvent.clientError => handleClientError rd
  | RawEvent.tunnelError => handleTunnelError rd
  | RawEvent.sendClip text => sendClipboard rd text
  | RawEvent.inboundClipboard mimetype stream => handleClipboard rd mimetype stream

/-- Run a sequence of raw events from a given state, concatenating the
effect traces in order. -/
def runFrom (rd : RDState) : List RawEvent → RDState × List Effect
  | [] => (rd, [])
  | ev :: evs =>
    ((runFrom (step rd ev).1 evs).1, (step rd ev).2 ++ (runFrom (step rd ev).1 evs).2)

/-- Run a sequence of raw events on a freshly constructed client. -/
def run (evs : List RawEvent) : RDState × List Effect :=
  runFrom initialState evs

/-- The application states published on the state channel, extracted from an
effect trace in order. -/
def publishedStates (effs : List Effect) : List AppState :=
  effs.filterMap (fun e =>
    match e with
    | Effect.publishState s => some s
    | _ => none)

/-- The payloads published on the clipboard channel, extracted from an effect
trace in order. -/
def clipPayloads (effs : List Effect) : List String :=
  effs.filterMap (fun e =>
    match e with
    | Effect.publishClipboard p => some p
    | _ => none)

/-- What a new subscriber of the state channel immediately receives: a
`BehaviorSubject` replays exactly its one buffered value. -/
def subscribeState (rd : RDState) : List AppState :=
  [rd.onStateChange]

/-- What a new subscriber of the clipboard channel immediately receives: a
`ReplaySubject(1)` replays its buffer, which is empty until the first `next`. -/
def subscribeClipboard (rd : RDState) : List String :=
  rd.onClipboard.toList

/-- The §4.3 mapping for client-engine codes: which application state (if
any) a raw code publishes. -/
def clientCodeMap (code : Nat) : Option AppState :=
  match code with
  | 0 => some AppState.IDLE
  | 2 => some AppState.WAITING
  | 3 => some AppState.CONNECTED
  | _ => none

/-- The §4.3 mapping for tunnel codes. -/
def tunnelCodeMap (code : Nat) : Option AppState :=
  match code with
  | 1 => some AppState.CONNECTING
  | 2 => some AppState.DISCONNECTED
  | _ => none

/-!
Configuration building (`buildConfiguration`, lines 201–212, and
`buildQueryString`, lines 191–199).

Option values are JS values; the ones the source uses are `null` (for `ID`),
numbers (the screen dimensions) and strings.  We model a value as
`Option String` (`none` = `null`, numbers rendered in decimal).
-/

/-- A hexadecimal digit character, uppercase, as `encodeURIComponent`
produces. -/
def hexDigitChar (n : Nat) : Char :=
  if n < 10 then Char.ofNat (48 + n) else Char.ofNat (55 + n)

/-- Is `c` left unescaped by `encodeURIComponent`?  (Letters, digits, and
`- _ . ! ~ * ' ( )`.) -/
def isUnescapedChar (c : Char) : Bool :=
  c.isAlpha || c.isDigit || c == '-' || c == '_' || c == '.' || c == '!' ||
  c == '~' || c == '*' || c.toNat == 39 || c == '(' || c == ')'

/-- Modelled from the spec: the query-string serializer of the external
`URLSearchParams` collaborator (from `@angular/http`, not part of this
repository) percent-escapes keys and values "per standard URL-query rules"
(§4.1).  This is `encodeURIComponent` restricted to one-byte code points,
which covers every character the source ever feeds it. -/
def percentEncode (s : String) : String :=
  s.data.foldl
    (fun acc c =>
      if isUnescapedChar c then acc.push c
      else acc ++ ("%".push (hexDigitChar (c.toNat / 16))).push (hexDigitChar (c.toNat % 16)))
    ""

/-- Modelled from the spec: serializing one value.  A `null` value serializes
with "no value present or empty" (§8's `ID` convention). -/
def serializeValue (v : Option String) : String :=
  match v with
  | none => ""
  | some s => percentEncode s

/-- Modelled from the spec: `URLSearchParams.set(key, value)` keeps each key
once — an existing key's value is replaced in place, a new key is appended. -/
def setParam (ps : List (String × Option String)) (k : String) (v : Option String) :
    List (String × Option String) :=
  if ps.any (fun p => p.1 == k) then
    ps.map (fun p => if p.1 == k then (k, v) else p)
  else ps ++ [(k, v)]

/-- `buildQueryString(options)` (lines 191–199): `params.set(key, value)` for
each own key of `options` in insertion order, then `params.toString()`
(each pair rendered `key=value` and joined with `&`). -/
def buildQueryString (options : List (String × Option String)) : String :=
  let params := options.foldl (fun ps kv => setParam ps kv.1 kv.2) []
  String.intercalate "&" (params.map (fun kv => percentEncode kv.1 ++ "=" ++ serializeValue kv.2))

/-- The merged option object of `buildConfiguration` (lines 203–210): the JS
object literal `{ID, WIDTH, HEIGHT, AUDIO, IMAGE, ...options}` — spread keys
overwrite colliding defaults in place and append otherwise, preserving
insertion order. -/
def mergedOptions (width height : Nat) (options : List (String × Option String)) :
    List (String × Option String) :=
  options.foldl (fun ps kv => setParam ps kv.1 kv.2)
    [("ID", none),
     ("WIDTH", some (toString width)),
     ("HEIGHT", some (toString height)),
     ("AUDIO", some "audio/L16"),
     ("IMAGE", some "image/png")]

/-- `buildConfiguration()` (lines 201–212), with the screen geometry read by
`calculateDimensions` (lines 184–189) passed explicitly. -/
def buildConfiguration (width height : Nat) (options : List (String × Option String)) : String :=
  buildQueryString (mergedOptions width height options)

/-! Helper lemmas about traces and replay buffers. -/

theorem publishedStates_append (a b : List Effect) :
    publishedStates (a ++ b) = publishedStates a ++ publishedStates b :=
  List.filterMap_append a b _

theorem clipPayloads_append (a b : List Effect) :
    clipPayloads (a ++ b) = clipPayloads a ++ clipPayloads b :=
  List.filterMap_append a b _

theorem getLast?_append_or {α : Type} (a b : List α) :
    (a ++ b).getLast? = b.getLast?.or a.getLast? := by
  induction a with
  | nil => simp
  | cons x xs ih =>
    simp only [List.cons_append, List.getLast?_cons, ih]
    cases b.getLast? with
    | none => simp [Option.or]
    | some v => simp [Option.or]

theorem getD_or {α : Type} (x y : Option α) (d : α) :
    (x.or y).getD d = x.getD (y.getD d) := by
  cases x <;> rfl

theorem filterMap_cons_toList {α β : Type} (f : α → Option β) (a : α) (l : List α) :
    List.filterMap f (a :: l) = (f a).toList ++ List.filterMap f l := by
  cases h : f a <;> simp [List.filterMap_cons, h]

/-- One step preserves the replay-buffer invariant: after any single event,
the private state and the behavior-subject buffer equal the last state the
step published (if any), and the clipboard buffer equals the last payload the
step published (if any). -/
theorem step_inv (rd : RDState) (ev : RawEvent) :
    (step rd ev).1.state = ((publishedStates (step rd ev).2).getLast?).getD rd.state ∧
    (step rd ev).1.onStateChange =
      ((publishedStates (step rd ev).2).getLast?).getD rd.onStateChange ∧
    (step rd ev).1.onClipboard =
      ((clipPayloads (step rd ev).2).getLast?).or rd.onClipboard := by
  cases ev with
  | clientState code =>
    rcases code with _ | _ | _ | _ | _ | _ | c <;> exact ⟨rfl, rfl, rfl⟩
  | tunnelState code =>
    rcases code with _ | _ | _ | c <;> exact ⟨rfl, rfl, rfl⟩
  | clientError => exact ⟨rfl, rfl, rfl⟩
  | tunnelError => exact ⟨rfl, rfl, rfl⟩
  | sendClip text =>
    cases text with
    | none => exact ⟨rfl, rfl, rfl⟩
    | some t =>
      by_cases h : t == "" <;>
        simp [step, sendClipboard, h, publishedStates, clipPayloads]
  | inboundClipboard mimetype stream =>
    obtain ⟨chunks, ended⟩ := stream
    by_cases h : isTextMimetype mimetype <;> cases ended <;>
      simp [step, handleClipboard, h, publishedStates, clipPayloads]

/-- Running any event sequence preserves the replay-buffer invariant. -/
theorem runFrom_inv (evs : List RawEvent) : ∀ rd : RDState,
    (runFrom rd evs).1.state =
      ((publishedStates (runFrom rd evs).2).getLast?).getD rd.state ∧
    (runFrom rd evs).1.onStateChange =
      ((publishedStates (runFrom rd evs).2).getLast?).getD rd.onStateChange ∧
    (runFrom rd evs).1.onClipboard =
      ((clipPayloads (runFrom rd evs).2).getLast?).or rd.onClipboard := by
  induction evs with
  | nil => intro rd; exact ⟨rfl, rfl, rfl⟩
  | cons ev evs ih =>
    intro rd
    obtain ⟨h1, h2, h3⟩ := ih (step rd ev).1
    obtain ⟨s1, s2, s3⟩ := step_inv rd ev
    refine ⟨?_, ?_, ?_⟩
    · show (runFrom (step rd ev).1 evs).1.state =
        ((publishedStates ((step rd ev).2 ++ (runFrom (step rd ev).1 evs).2)).getLast?).getD
          rd.state
      rw [publishedStates_append, getLast?_append_or, getD_or, h1, s1]
    · show (runFrom (step rd ev).1 evs).1.onStateChange =
        ((publishedStates ((step rd ev).2 ++ (runFrom (step rd ev).1 evs).2)).getLast?).getD
          rd.onStateChange
      rw [publishedStates_append, getLast?_append_or, getD_or, h2, s2]
    · show (runFrom (step rd ev).1 evs).1.onClipboard =
        ((clipPayloads ((step rd ev).2 ++ (runFrom (step rd ev).1 evs).2)).getLast?).or
          rd.onClipboard
      rw [clipPayloads_append, getLast?_append_or, Option.or_assoc, h3, s3]

/-- The states a single client-engine code publishes are exactly those of the
§4.3 mapping. -/
theorem pubStep_client (rd : RDState) (c : Nat) :
    publishedStates (handleClientStateChange rd c).2 = (clientCodeMap c).toList := by
  rcases c with _ | _ | _ | _ | _ | _ | c <;> rfl

/-- Trace of a pure client-engine code sequence, from any starting state. -/
theorem runFrom_clientCodes (codes : List Nat) : ∀ rd : RDState,
    publishedStates (runFrom rd (codes.map RawEvent.clientState)).2 =
      codes.filterMap clientCodeMap := by
  induction codes with
  | nil => intro rd; rfl
  | cons c cs ih =>
    intro rd
    show publishedStates
        ((step rd (RawEvent.clientState c)).2 ++
          (runFrom (step rd (RawEvent.clientState c)).1 (cs.map RawEvent.clientState)).2) = _
    rw [publishedStates_append, ih, filterMap_cons_toList]
    rw [show (step rd (RawEvent.clientState c)).2 = (handleClientStateChange rd c).2 from rfl,
      pubStep_client]

/-! Claim theorems. -/

/-- C1: for every sequence of raw client-engine codes, the sequence published
on the state channel is exactly the §4.3 mapping (0 ↦ Idle, 2 ↦ Waiting,
3 ↦ Connected, all other codes dropped); moreover each individual code either
sets-and-publishes the mapped state or leaves the client completely untouched
with no effect at all. -/
theorem C1_client_state_mapping :
    (∀ codes : List Nat,
      publishedStates (run (codes.map RawEvent.clientState)).2 =
        codes.filterMap clientCodeMap) ∧
    (∀ (rd : RDState) (code : Nat),
      handleClientStateChange rd code =
        match clientCodeMap code with
        | some s => ({ rd with state := s, onStateChange := s }, [Effect.publishState s])
        | none => (rd, [])) := by
  constructor
  · intro codes
    exact runFrom_clientCodes codes initialState
  · intro rd code
    rcases code with _ | _ | _ | _ | _ | _ | c <;> rfl

/-- C2: a raw tunnel code 1 sets and publishes `CONNECTING`, code 2 sets and
publishes `DISCONNECTED`, and every other code changes nothing and publishes
nothing. -/
theorem C2_tunnel_state_mapping :
    ∀ (rd : RDState) (code : Nat),
      handleTunnelStateChange rd code =
        match tunnelCodeMap code with
        | some s => ({ rd with state := s, onStateChange := s }, [Effect.publishState s])
        | none => (rd, []) := by
  intro rd code
  rcases code with _ | _ | _ | c <;> rfl

/-- C3: from every application state, an error signal from either source
produces exactly the effect trace
`[clientDisconnect, publishState <error state>]`: the engine disconnect comes
strictly first and nothing else is published in between. -/
theorem C3_error_disconnect_ordering :
    ∀ rd : RDState,
      handleClientError rd =
        ({ rd with state := AppState.CLIENT_ERROR, onStateChange := AppState.CLIENT_ERROR },
         [Effect.clientDisconnect, Effect.publishState AppState.CLIENT_ERROR]) ∧
      handleTunnelError rd =
        ({ rd with state := AppState.TUNNEL_ERROR, onStateChange := AppState.TUNNEL_ERROR },
         [Effect.clientDisconnect, Effect.publishState AppState.TUNNEL_ERROR]) := by
  intro rd
  exact ⟨rfl, rfl⟩

/-- C4: a stream whose mimetype starts with `text/` and whose end-of-stream
signal fires publishes exactly one clipboard payload, the in-order
concatenation of its chunks; a stream whose mimetype does not start with
`text/` publishes nothing; a qualifying stream whose end-of-stream signal
never fires publishes nothing. -/
theorem C4_clipboard_assembly :
    (∀ (rd : RDState) (mt : String) (chunks : List String),
      isTextMimetype mt = true →
        handleClipboard rd mt { chunks := chunks, ended := true } =
          ({ rd with onClipboard := some (assembleData chunks) },
           [Effect.publishClipboard (assembleData chunks)]) ∧
          assembleData chunks = String.join chunks) ∧
    (∀ (rd : RDState) (mt : String) (stream : InboundStream),
      isTextMimetype mt = false →
        handleClipboard rd mt stream = (rd, [])) ∧
    (∀ (rd : RDState) (mt : String) (chunks : List String),
      handleClipboard rd mt { chunks := chunks, ended := false } = (rd, [])) := by
  refine ⟨fun rd mt chunks h => ⟨?_, rfl⟩, fun rd mt stream h => ?_, fun rd mt chunks => ?_⟩
  · simp [handleClipboard, h]
  · simp [handleClipboard, h]
  · simp [handleClipboard]

/-- Witness for C4 at the spec's own inputs: `text/plain` with chunks
`["Hel", "lo"]` and end-of-stream publishes exactly `"Hello"`; `image/png`
publishes nothing; a missing end-of-stream publishes nothing. -/
theorem C4_clipboard_assembly_witness :
    handleClipboard initialState "text/plain" { chunks := ["Hel", "lo"], ended := true } =
      ({ initialState with onClipboard := some "Hello" },
       [Effect.publishClipboard "Hello"]) ∧
    handleClipboard initialState "image/png" { chunks := ["Hel", "lo"], ended := true } =
      (initialState, []) ∧
    handleClipboard initialState "text/plain" { chunks := ["Hel", "lo"], ended := false } =
      (initialState, []) := by
  refine ⟨?_,
    C4_clipboard_assembly.2.1 initialState "image/png" _ (by decide),
    C4_clipboard_assembly.2.2 initialState "text/plain" ["Hel", "lo"]⟩
  have h := (C4_clipboard_assembly.1 initialState "text/plain" ["Hel", "lo"] (by decide)).1
  have ha : assembleData ["Hel", "lo"] = "Hello" := by decide
  rw [ha] at h
  exact h

/-- C5: the configuration builder, at geometry 1024×768, yields exactly
`ID=&WIDTH=1024&HEIGHT=768&AUDIO=audio%2FL16&IMAGE=image%2Fpng` for empty
caller options (so the claimed substring occurs, in order, with `ID` empty),
and a caller `WIDTH` of `800` overrides the default `1024` in place. -/
theorem C5_build_configuration :
    buildConfiguration 1024 768 [] =
      "ID=&WIDTH=1024&HEIGHT=768&AUDIO=audio%2FL16&IMAGE=image%2Fpng" ∧
    (∃ p q : String,
      buildConfiguration 1024 768 [] =
        p ++ "WIDTH=1024&HEIGHT=768&AUDIO=audio%2FL16&IMAGE=image%2Fpng" ++ q) ∧
    buildConfiguration 1024 768 [("WIDTH", some "800")] =
      "ID=&WIDTH=800&HEIGHT=768&AUDIO=audio%2FL16&IMAGE=image%2Fpng" := by
  refine ⟨by decide, ⟨"ID=&", "", by decide⟩, by decide⟩

/-- C6: `sendClipboard` with non-empty text performs exactly two effects in
order — publish on the clipboard channel, then `setClipboard` on the engine —
and with empty or absent text performs no effect and leaves the client (and
so the clipboard replay buffer) untouched. -/
theorem C6_send_clipboard :
    (∀ (rd : RDState) (t : String), t ≠ "" →
      sendClipboard rd (some t) =
        ({ rd with onClipboard := some t },
         [Effect.publishClipboard t, Effect.setClipboardOnClient t])) ∧
    (∀ rd : RDState, sendClipboard rd (some "") = (rd, [])) ∧
    (∀ rd : RDState, sendClipboard rd none = (rd, [])) := by
  refine ⟨fun rd t h => ?_, fun rd => rfl, fun rd => rfl⟩
  simp [sendClipboard, h]

/-- Witness for C6 at the concrete text `"hi"`. -/
theorem C6_send_clipboard_witness :
    sendClipboard initialState (some "hi") =
      ({ initialState with onClipboard := some "hi" },
       [Effect.publishClipboard "hi", Effect.setClipboardOnClient "hi"]) ∧
    sendClipboard initialState (some "") = (initialState, []) ∧
    sendClipboard initialState none = (initialState, []) :=
  ⟨C6_send_clipboard.1 initialState "hi" (by decide),
   C6_send_clipboard.2.1 initialState,
   C6_send_clipboard.2.2 initialState⟩

/-- C7: `disconnect` is total on every application state, delegates exactly
one engine-disconnect call, leaves the whole client state (including the
state-channel buffer) unchanged, and publishes no state. -/
theorem C7_disconnect_frame :
    ∀ rd : RDState,
      disconnect rd = (rd, [Effect.clientDisconnect]) ∧
      publishedStates (disconnect rd).2 = [] := by
  intro rd
  exact ⟨rfl, rfl⟩

/-- C8: a subscriber of the state channel on a fresh client immediately
receives exactly `[CONNECTING]` (not `IDLE`), and after any event sequence a
new subscriber immediately receives exactly the single most recently
published state (replay depth 1), still defaulting to `CONNECTING` when
nothing was published. -/
theorem C8_state_channel_replay :
    subscribeState initialState = [AppState.CONNECTING] ∧
    (∀ evs : List RawEvent,
      subscribeState (run evs).1 =
        [((publishedStates (run evs).2).getLast?).getD AppState.CONNECTING]) := by
  constructor
  · rfl
  · intro evs
    exact congrArg (fun x => [x]) ((runFrom_inv evs initialState).2.1)

/-- C9: a subscriber of the clipboard channel on a fresh client receives
nothing, and after any event sequence a new subscriber immediately receives
the most recent published payload if one exists, otherwise still nothing
(replay depth 1, no initial value). -/
theorem C9_clipboard_channel_replay :
    subscribeClipboard initialState = [] ∧
    (∀ evs : List RawEvent,
      subscribeClipboard (run evs).1 =
        ((clipPayloads (run evs).2).getLast?).toList) := by
  constructor
  · rfl
  · intro evs
    have h := (runFrom_inv evs initialState).2.2
    rw [show initialState.onClipboard = none from rfl, Option.or_none] at h
    exact congrArg Option.toList h

/-- C10: on a fresh client `getState` is `IDLE` and `isState IDLE` holds while
the state channel simultaneously replays `CONNECTING` — two distinct values —
and every `setState` makes `getState`, the published value and the channel
buffer agree again; in fact after any run `getState` equals the last published
state (or `IDLE` if nothing was published). -/
theorem C10_state_vs_channel :
    getState initialState = AppState.IDLE ∧
    isState initialState AppState.IDLE = true ∧
    subscribeState initialState = [AppState.CONNECTING] ∧
    isState initialState AppState.CONNECTING = false ∧
    (∀ (rd : RDState) (s : AppState),
      getState (setState rd s).1 = s ∧
      (setState rd s).2 = [Effect.publishState s] ∧
      subscribeState (setState rd s).1 = [s]) ∧
    (∀ evs : List RawEvent,
      getState (run evs).1 =
        ((publishedStates (run evs).2).getLast?).getD AppState.IDLE) := by
  refine ⟨rfl, rfl, rfl, by decide, fun rd s => ⟨rfl, rfl, rfl⟩, fun evs => ?_⟩
  exact (runFrom_inv evs initialState).1

end RemoteDesktop
